import Mathlib

/-!
Verification development for the Designo Figma plugin (message handlers in
Plugin/code.js and the alternate handler file unnamed/part_001).

The embedding models each message handler of the plugin as a pure function
from an environment record (the message payload, the relevant slice of the
document, and one flag per fallible document-facade operation saying whether
that operation throws on this run) to an output record (the parent frame's
children after the handler returns, the isProcessing flag, the outcome, and
bookkeeping flags).  Geometry uses exact rationals.  Each definition follows
the corresponding source lines; variant definitions from unnamed/part_001
carry the suffix 001.
-/

namespace Designo

/-- A document node as the handlers see it: identifier, name, geometry and
optional layout constraints (abstracted to a token). -/
structure FNode where
  id : Nat
  name : String
  x : Rat
  y : Rat
  width : Rat
  height : Rat
  constraints : Option Nat
deriving Repr, DecidableEq

/-- Result classification of one handler run. -/
inductive Outcome where
  | success
  | errored (msg : String)
  | unhandled
deriving Repr, DecidableEq

/-- Whitespace trimming on the character list, mirroring String.prototype.trim:
drop whitespace from the front and from the back. -/
def trimChars (l : List Char) : List Char :=
  ((l.dropWhile Char.isWhitespace).reverse.dropWhile Char.isWhitespace).reverse

/-- The shared artifact validation from code.js lines 249 and 304 (and
part_001 lines 371 and 447): the content must be a non-empty string that,
after trim and toLowerCase, starts with the SVG root tag.  The string is
viewed through its character list. -/
def isValidSvgContent (s : String) : Bool :=
  !(s.data.isEmpty) && "<svg".data.isPrefixOf ((trimChars s.data).map Char.toLower)

/-- insertChild index semantics: place the node at the given position in the
ordered children list. -/
def insertAt (cs : List FNode) (i : Nat) (n : FNode) : List FNode :=
  cs.take i ++ n :: cs.drop i

/-- Overwrite the node at a position (a node object mutated in place while it
sits in its parent's children list). -/
def setAt (cs : List FNode) (i : Nat) (n : FNode) : List FNode :=
  cs.take i ++ n :: cs.drop (i + 1)

/-- node.remove() semantics for the child at a position. -/
def removeAt (cs : List FNode) (i : Nat) : List FNode :=
  cs.take i ++ cs.drop (i + 1)

/-- parent.children.indexOf, resolved through the stable unique identifier. -/
def indexOfById (cs : List FNode) (i : Nat) : Option Nat :=
  cs.findIdx? (fun c => c.id == i)

/-! ### finalize-creation handler (Create flow) -/

/-- Environment of one finalize-creation run: the message payload, the
re-fetched target frame's state, and a throw flag per fallible facade call. -/
structure CreateEnv where
  svgContent : String
  busy0 : Bool
  lookupThrows : Bool
  frameFound : Bool
  frameRemoved : Bool
  frameType : String
  frameChildren : List FNode
  frameWidth : Rat
  frameHeight : Rat
  createThrows : Bool
  createdNode : Option FNode
  appendThrows : Bool
  postludeThrows : Bool
deriving Repr, DecidableEq

/-- Output of one finalize-creation run: the target frame's children, the
isProcessing flag, the outcome, whether any document access happened, and
whether a message (error or success) was posted to the UI. -/
structure CreateOut where
  children : List FNode
  isProcessing : Bool
  outcome : Outcome
  docAccessed : Bool
  surfaced : Bool
deriving Repr, DecidableEq

/-- Centering from code.js lines 280-281: x = frame.width / 2 - node.width / 2
and analogously for y.  The node's own size is untouched. -/
def centeredNode (fw fh : Rat) (n : FNode) : FNode :=
  { n with x := fw / 2 - n.width / 2, y := fh / 2 - n.height / 2 }

/-- The finalize-creation handler of Plugin/code.js lines 245-297.  The SVG
check precedes the frame lookup; the lookup await sits outside the try block,
so a throwing lookup escapes the handler; re-validation (exists, not removed,
type FRAME, still empty) aborts without mutation; on success the imported
node is renamed, appended and centered, and its natural size is kept. -/
def finalizeCreation (e : CreateEnv) : CreateOut :=
  if !(isValidSvgContent e.svgContent) then
    ⟨e.frameChildren, false, .errored "Invalid SVG content received for creation.", false, true⟩
  else if e.lookupThrows then
    ⟨e.frameChildren, e.busy0, .unhandled, true, false⟩
  else if !e.frameFound || e.frameRemoved || !(e.frameType == "FRAME") then
    ⟨e.frameChildren, false, .errored "Target frame not found or invalid for insertion.", true, true⟩
  else if e.frameChildren.length > 0 then
    ⟨e.frameChildren, false, .errored "Target frame is no longer empty. Creation aborted.", true, true⟩
  else if e.createThrows then
    ⟨e.frameChildren, false, .errored "SVG Import/Insertion Error: import threw.", true, true⟩
  else
    match e.createdNode with
    | none =>
      ⟨e.frameChildren, false, .errored "SVG Import/Insertion Error: Figma importer created a null node.", true, true⟩
    | some created =>
      let named : FNode := { created with name := "AI Generated Design" }
      if e.appendThrows then
        ⟨e.frameChildren, false, .errored "SVG Import/Insertion Error: append threw.", true, true⟩
      else
        let placed := centeredNode e.frameWidth e.frameHeight named
        if e.postludeThrows then
          ⟨e.frameChildren ++ [placed], false, .errored "SVG Import/Insertion Error: postlude threw.", true, true⟩
        else
          ⟨e.frameChildren ++ [placed], false, .success, true, true⟩

/-- The finalize-creation handler of unnamed/part_001 lines 367-438.  Same
validation and re-validation order; on success the renamed node is appended
but neither repositioned nor resized. -/
def finalizeCreation001 (e : CreateEnv) : CreateOut :=
  if !(isValidSvgContent e.svgContent) then
    ⟨e.frameChildren, false, .errored "Invalid SVG content received from backend/UI for creation.", false, true⟩
  else if e.lookupThrows then
    ⟨e.frameChildren, e.busy0, .unhandled, true, false⟩
  else if !e.frameFound || e.frameRemoved || !(e.frameType == "FRAME") then
    ⟨e.frameChildren, false, .errored "Target frame not found or invalid for insertion. Please reselect.", true, true⟩
  else if e.frameChildren.length > 0 then
    ⟨e.frameChildren, false, .errored "Target frame is no longer empty. Creation aborted (001).", true, true⟩
  else if e.createThrows then
    ⟨e.frameChildren, false, .errored "SVG Import/Insertion Error: import threw (001).", true, true⟩
  else
    match e.createdNode with
    | none =>
      ⟨e.frameChildren, false, .errored "SVG Import/Insertion Error: null node (001).", true, true⟩
    | some created =>
      let named : FNode := { created with name := "AI Generated Design" }
      if e.appendThrows then
        ⟨e.frameChildren, false, .errored "SVG Import/Insertion Error: append threw (001).", true, true⟩
      else if e.postludeThrows then
        ⟨e.frameChildren ++ [named], false, .errored "SVG Import/Insertion Error: postlude threw (001).", true, true⟩
      else
        ⟨e.frameChildren ++ [named], false, .success, true, true⟩

/-! ### replace-element-with-svg handler (Modify flow) -/

/-- Environment of one replace-element-with-svg run: the message payload, the
re-fetched original element and its parent's children, the node produced by
createNodeFromSvg with its natural geometry, capability flags, and a throw
flag per fallible facade call. -/
structure ReplaceEnv where
  svgContent : String
  originalElementId : Option Nat
  busy0 : Bool
  lookupThrows : Bool
  lookupFound : Option FNode
  parentIsPage : Bool
  children : List FNode
  createThrows : Bool
  createdNode : Option FNode
  insertThrows : Bool
  setPosThrows : Bool
  hasResize : Bool
  resizeThrows : Bool
  newHasConstraintsProp : Bool
  constraintAssignThrows : Bool
  removeThrows : Bool
  postludeThrows : Bool
deriving Repr, DecidableEq

/-- Output of one replace-element-with-svg run. -/
structure ReplaceOut where
  children : List FNode
  isProcessing : Bool
  outcome : Outcome
  docAccessed : Bool
  surfaced : Bool
deriving Repr, DecidableEq

/-- The insertion step of code.js line 357: parent.insertChild(index, newNode),
placing the new node at the index the original occupies. -/
def insertPhaseChildren (cs : List FNode) (index : Nat) (n : FNode) : List FNode :=
  insertAt cs index n

/-- The insertion step of part_001 line 518: parent.insertChild(index + 1,
newNode), placing the new node one position after the original. -/
def insertPhaseChildren001 (cs : List FNode) (index : Nat) (n : FNode) : List FNode :=
  insertAt cs (index + 1) n

/-- The replacement node as it ends up in code.js lines 343-377: renamed after
the original, moved to the original's position, resized to the original's
width and height when the node supports resize and the resize call does not
throw (the resize and constraint attempts are individually caught), and given
the original's constraints when both sides allow it. -/
def configuredNode (e : ReplaceEnv) (orig created : FNode) : FNode :=
  let n1 : FNode := { created with name := orig.name ++ " (AI Modified)" }
  let n2 : FNode := { n1 with x := orig.x, y := orig.y }
  let n3 : FNode :=
    if e.hasResize && !e.resizeThrows then
      { n2 with width := orig.width, height := orig.height }
    else n2
  let n4 : FNode :=
    if orig.constraints.isSome && e.newHasConstraintsProp && !e.constraintAssignThrows then
      { n3 with constraints := orig.constraints }
    else n3
  n4

/-- The try block of the code.js replace-element-with-svg handler, lines
339-399, entered after all pre-checks passed.  Any throw lands in the catch
block, which resets isProcessing, posts an error, and removes the new node
only when its parent is not the original's parent — so a throw after the
insertChild call leaves the new node (and, until its removal, the original)
in place. -/
def replaceTryBlock (e : ReplaceEnv) (orig : FNode) : ReplaceOut :=
  if e.createThrows then
    ⟨e.children, false, .errored "Element SVG Import/Replacement Error: import threw.", true, true⟩
  else
    match e.createdNode with
    | none =>
      ⟨e.children, false, .errored "Element SVG Import/Replacement Error: Figma importer created a null node from the element SVG.", true, true⟩
    | some created =>
      match indexOfById e.children orig.id with
      | none =>
        ⟨e.children, false, .errored "Element SVG Import/Replacement Error: Could not find original element in its parent's children list.", true, true⟩
      | some index =>
        if e.insertThrows then
          ⟨e.children, false, .errored "Element SVG Import/Replacement Error: insert threw.", true, true⟩
        else
          if e.setPosThrows then
            let n1 : FNode := { created with name := orig.name ++ " (AI Modified)" }
            ⟨insertPhaseChildren e.children index n1, false, .errored "Element SVG Import/Replacement Error: set position threw.", true, true⟩
          else
            let cfg := configuredNode e orig created
            if e.removeThrows then
              ⟨insertPhaseChildren e.children index cfg, false, .errored "Element SVG Import/Replacement Error: remove threw.", true, true⟩
            else
              let afterRemove := removeAt (insertPhaseChildren e.children index cfg) (index + 1)
              if e.postludeThrows then
                ⟨afterRemove, false, .errored "Element SVG Import/Replacement Error: postlude threw.", true, true⟩
              else
                ⟨afterRemove, false, .success, true, true⟩

/-- The replace-element-with-svg handler of Plugin/code.js lines 300-400.  The
SVG check and the element-id check precede the element lookup; the lookup
await sits outside the try block; a missing or removed element, or a parent
that is the page, aborts without mutation; otherwise the try block runs. -/
def replaceElementWithSvg (e : ReplaceEnv) : ReplaceOut :=
  if !(isValidSvgContent e.svgContent) then
    ⟨e.children, false, .errored "Invalid SVG content received for replacement.", false, true⟩
  else
    match e.originalElementId with
    | none =>
      ⟨e.children, false, .errored "Internal Error: Missing original element ID for replacement.", false, true⟩
    | some _ =>
      if e.lookupThrows then
        ⟨e.children, e.busy0, .unhandled, true, false⟩
      else
        match e.lookupFound with
        | none =>
          ⟨e.children, false, .errored "Original element not found or was removed. Cannot replace.", true, true⟩
        | some orig =>
          if e.parentIsPage then
            ⟨e.children, false, .errored "Cannot replace top-level elements or elements without a valid parent.", true, true⟩
          else
            replaceTryBlock e orig

/-- The replacement node as it ends up in part_001 lines 500-540: renamed,
moved to the original's position, given the original's constraints when
present (individually caught), then resized to the original's width and
height when the node supports resize and its natural dimensions are positive.
The resize call there is not individually caught, so a throwing resize is a
fatal failure handled by the outer catch. -/
def configuredNode001 (e : ReplaceEnv) (orig created : FNode) : FNode :=
  let n1 : FNode := { created with name := orig.name ++ " (AI Modified)" }
  let n2 : FNode := { n1 with x := orig.x, y := orig.y }
  let n3 : FNode :=
    if orig.constraints.isSome && !e.constraintAssignThrows then
      { n2 with constraints := orig.constraints }
    else n2
  let n4 : FNode :=
    if e.hasResize && decide (0 < created.width) && decide (0 < created.height) && !e.resizeThrows then
      { n3 with width := orig.width, height := orig.height }
    else n3
  n4

/-- The try block of the part_001 replace-element-with-svg handler, lines
490-577.  Differences from code.js: the new node is inserted at index + 1;
the resize call is not individually caught, so a throwing resize aborts after
insertion with both nodes still in place; the original, sitting at its old
index, is removed afterwards. -/
def replaceTryBlock001 (e : ReplaceEnv) (orig : FNode) : ReplaceOut :=
  if e.createThrows then
    ⟨e.children, false, .errored "Element SVG Import/Replacement Error: import threw (001).", true, true⟩
  else
    match e.createdNode with
    | none =>
      ⟨e.children, false, .errored "Element SVG Import/Replacement Error: null node (001).", true, true⟩
    | some created =>
      match indexOfById e.children orig.id with
      | none =>
        ⟨e.children, false, .errored "Element SVG Import/Replacement Error: original not found in children (001).", true, true⟩
      | some index =>
        if e.insertThrows then
          ⟨e.children, false, .errored "Element SVG Import/Replacement Error: insert threw (001).", true, true⟩
        else
          if e.setPosThrows then
            let n1 : FNode := { created with name := orig.name ++ " (AI Modified)" }
            ⟨insertPhaseChildren001 e.children index n1, false, .errored "Element SVG Import/Replacement Error: set position threw (001).", true, true⟩
          else
            if e.hasResize && decide (0 < created.width) && decide (0 < created.height) && e.resizeThrows then
              let halfConfigured001 : FNode :=
                let n1 : FNode := { created with name := orig.name ++ " (AI Modified)" }
                let n2 : FNode := { n1 with x := orig.x, y := orig.y }
                if orig.constraints.isSome && !e.constraintAssignThrows then
                  { n2 with constraints := orig.constraints }
                else n2
              ⟨insertPhaseChildren001 e.children index halfConfigured001, false, .errored "Element SVG Import/Replacement Error: resize threw (001).", true, true⟩
            else
              let cfg := configuredNode001 e orig created
              if e.removeThrows then
                ⟨insertPhaseChildren001 e.children index cfg, false, .errored "Element SVG Import/Replacement Error: remove threw (001).", true, true⟩
              else
                let afterRemove := removeAt (insertPhaseChildren001 e.children index cfg) index
                if e.postludeThrows then
                  ⟨afterRemove, false, .errored "Element SVG Import/Replacement Error: postlude threw (001).", true, true⟩
                else
                  ⟨afterRemove, false, .success, true, true⟩

/-- The replace-element-with-svg handler of unnamed/part_001 lines 443-578. -/
def replaceElementWithSvg001 (e : ReplaceEnv) : ReplaceOut :=
  if !(isValidSvgContent e.svgContent) then
    ⟨e.children, false, .errored "Invalid SVG content received from backend/UI for replacement.", false, true⟩
  else
    match e.originalElementId with
    | none =>
      ⟨e.children, false, .errored "Internal Error: Missing original element ID for replacement (001).", false, true⟩
    | some _ =>
      if e.lookupThrows then
        ⟨e.children, e.busy0, .unhandled, true, false⟩
      else
        match e.lookupFound with
        | none =>
          ⟨e.children, false, .errored "Original element not found or was removed. Cannot replace. Please reselect.", true, true⟩
        | some orig =>
          if e.parentIsPage then
            ⟨e.children, false, .errored "Cannot replace top-level elements directly.", true, true⟩
          else
            replaceTryBlock001 e orig

/-! ### request-ai-context handler (code.js) and request-ai-generation
handler (part_001): the request phase of an operation -/

/-- Outcome of a request-phase handler run. -/
inductive ContextOutcome where
  | ignoredBusy
  | errored (msg : String)
  | proceededCreate
  | proceededModify
  | acknowledgedAnswer
  | unhandled
deriving Repr, DecidableEq

/-- Environment of one request-phase run: the busy flag at message arrival,
the message payload, and the state the document lookups and exports observe. -/
structure ContextEnv where
  busy0 : Bool
  mode : String
  frameId : Option Nat
  elementInfoId : Option Nat
  lookupThrows : Bool
  frameFound : Bool
  frameRemoved : Bool
  frameType : String
  frameChildrenCount : Nat
  elementFound : Bool
  elementRemoved : Bool
  exportThrows : Bool
deriving Repr, DecidableEq

/-- Output of one request-phase run: the busy flag after the handler, the
outcome, whether a proceed-to-backend message was posted (the trigger for the
Generation Service call made by the UI), and whether any document access
happened. -/
structure ContextOut where
  isProcessing : Bool
  outcome : ContextOutcome
  backendDispatched : Bool
  docAccessed : Bool
deriving Repr, DecidableEq

/-- The request-ai-context handler of Plugin/code.js lines 134-242.  The
isProcessing guard at lines 135-140 returns immediately, before any state
change, document access or backend dispatch, when a request arrives while
busy.  Otherwise the flag is set, the frame (and for modify the element) is
re-fetched and validated, modify exports the images, and a
proceed-to-backend message is posted with the flag left set.  The frame
lookup await at line 154 sits outside the try block. -/
def requestAiContext (e : ContextEnv) : ContextOut :=
  if e.busy0 then
    ⟨true, .ignoredBusy, false, false⟩
  else if (e.mode == "create" || e.mode == "modify") && e.frameId.isNone then
    ⟨false, .errored "Internal Error: Frame ID missing for create/modify context request.", false, false⟩
  else
    if e.frameId.isSome && e.lookupThrows then
      ⟨true, .unhandled, false, true⟩
    else if e.frameId.isSome && (!e.frameFound || e.frameRemoved || !(e.frameType == "FRAME")) then
      ⟨false, .errored "Target frame not found or invalid.", false, true⟩
    else if e.mode == "create" then
      if e.frameChildrenCount > 0 then
        ⟨false, .errored "Error preparing request: Target frame is not empty. Cannot create.", false, true⟩
      else
        ⟨true, .proceededCreate, true, true⟩
    else if e.mode == "modify" then
      if e.elementInfoId.isNone then
        ⟨false, .errored "Error preparing request: Internal Error: Missing element information for modification.", false, true⟩
      else if !e.elementFound || e.elementRemoved then
        ⟨false, .errored "Error preparing request: Selected element not found or removed. Please reselect.", false, true⟩
      else if e.exportThrows then
        ⟨false, .errored "Error preparing request: export threw.", false, true⟩
      else
        ⟨true, .proceededModify, true, true⟩
    else
      ⟨false, .errored "Error preparing request: Invalid mode received with request-ai-context.", false, true⟩

/-- The request-ai-generation handler of unnamed/part_001 lines 171-363.
There is no busy guard: isProcessing is set to true unconditionally at line
172 and the request is processed regardless of the flag's prior value.  The
frame lookup happens inside the try block.  A valid create request posts
proceed-to-backend-text, a valid modify request exports and posts
proceed-to-backend-vision, answer mode only resets the flag. -/
def requestAiGeneration (e : ContextEnv) : ContextOut :=
  if e.frameId.isSome && e.lookupThrows then
    ⟨false, .errored "Preparation Error: lookup threw.", false, true⟩
  else if e.frameId.isSome && (!e.frameFound || e.frameRemoved || !(e.frameType == "FRAME")) then
    ⟨false, .errored "Target frame not found or invalid. Please reselect.", false, true⟩
  else if e.frameId.isNone && !(e.mode == "answer") then
    ⟨false, .errored "Internal Error: Frame ID is missing. Please reselect.", false, false⟩
  else if e.mode == "modify" then
    if e.elementInfoId.isNone then
      ⟨false, .errored "Internal Error: Missing element information for modification. Please reselect.", false, true⟩
    else if !e.elementFound || e.elementRemoved then
      ⟨false, .errored "The selected element seems to have been removed. Please reselect.", false, true⟩
    else if e.exportThrows then
      ⟨false, .errored "Export Error: export threw.", false, true⟩
    else
      ⟨true, .proceededModify, true, true⟩
  else if e.mode == "create" then
    if e.frameChildrenCount > 0 then
      ⟨false, .errored "Target frame is no longer empty. Cannot create new design.", false, true⟩
    else
      ⟨true, .proceededCreate, true, true⟩
  else if e.mode == "answer" then
    ⟨false, .acknowledgedAnswer, false, true⟩
  else
    ⟨false, .errored "Internal Error: Unknown mode in request-ai-generation message.", false, true⟩

/-! ### Message dispatch (figma.ui.onmessage switch in code.js) -/

/-- The branches of the code.js message switch, lines 127-418. -/
inductive HandlerBranch where
  | requestInitialSelection
  | requestAiContextBranch
  | finalizeCreationBranch
  | replaceElementBranch
  | errorReportBranch
  | unknownBranch
deriving Repr, DecidableEq

/-- Which branch of the switch a message type selects (code.js lines
127-418); every unrecognized type falls to the default branch. -/
def dispatchBranch (t : String) : HandlerBranch :=
  if t == "request-initial-selection" then .requestInitialSelection
  else if t == "request-ai-context" then .requestAiContextBranch
  else if t == "finalize-creation" then .finalizeCreationBranch
  else if t == "replace-element-with-svg" then .replaceElementBranch
  else if t == "modification-error" then .errorReportBranch
  else if t == "backend-error" then .errorReportBranch
  else .unknownBranch

/-- The default branch of the switch, code.js lines 414-417: it sets
isProcessing to false regardless of its prior value. -/
def unknownBranchIsProcessingAfter (_busy : Bool) : Bool :=
  false

/-! ### Supporting lemmas about the children-list operations -/

theorem insertAt_zero (cs : List FNode) (n : FNode) :
    insertAt cs 0 n = n :: cs := by
  simp [insertAt]

theorem insertAt_cons_succ (c : FNode) (cs : List FNode) (i : Nat) (n : FNode) :
    insertAt (c :: cs) (i + 1) n = c :: insertAt cs i n := by
  simp [insertAt]

theorem setAt_zero (cs : List FNode) (n : FNode) :
    setAt cs 0 n = n :: cs.drop 1 := by
  simp [setAt]

theorem setAt_cons_succ (c : FNode) (cs : List FNode) (i : Nat) (n : FNode) :
    setAt (c :: cs) (i + 1) n = c :: setAt cs i n := by
  simp [setAt]

theorem removeAt_cons_succ (c : FNode) (cs : List FNode) (i : Nat) :
    removeAt (c :: cs) (i + 1) = c :: removeAt cs i := by
  simp [removeAt]

theorem removeAt_cons_zero (c : FNode) (cs : List FNode) :
    removeAt (c :: cs) 0 = cs := by
  simp [removeAt]

theorem getElem?_insertAt_self {cs : List FNode} {i : Nat} (n : FNode)
    (h : i ≤ cs.length) : (insertAt cs i n)[i]? = some n := by
  induction cs generalizing i with
  | nil =>
    have hi : i = 0 := by simpa using h
    subst hi
    simp [insertAt]
  | cons c cs ih =>
    cases i with
    | zero => simp [insertAt_zero]
    | succ i =>
      rw [insertAt_cons_succ]
      simp only [List.getElem?_cons_succ]
      exact ih (by simpa using h)

theorem getElem?_insertAt_succ {cs : List FNode} {i : Nat} (n : FNode)
    (h : i ≤ cs.length) : (insertAt cs i n)[i + 1]? = cs[i]? := by
  induction cs generalizing i with
  | nil =>
    have hi : i = 0 := by simpa using h
    subst hi
    simp [insertAt]
  | cons c cs ih =>
    cases i with
    | zero => simp [insertAt_zero]
    | succ i =>
      rw [insertAt_cons_succ]
      simp only [List.getElem?_cons_succ]
      exact ih (by simpa using h)

theorem getElem?_insertAt_lt {cs : List FNode} {i j : Nat} (n : FNode)
    (hj : j < i) (hi : i ≤ cs.length) : (insertAt cs i n)[j]? = cs[j]? := by
  induction cs generalizing i j with
  | nil =>
    have : i = 0 := by simpa using hi
    omega
  | cons c cs ih =>
    cases i with
    | zero => omega
    | succ i =>
      rw [insertAt_cons_succ]
      cases j with
      | zero => simp
      | succ j =>
        simp only [List.getElem?_cons_succ]
        exact ih (by omega) (by simpa using hi)

theorem removeAt_insertAt {cs : List FNode} {i : Nat} (n : FNode)
    (h : i ≤ cs.length) : removeAt (insertAt cs i n) (i + 1) = setAt cs i n := by
  induction cs generalizing i with
  | nil =>
    have hi : i = 0 := by simpa using h
    subst hi
    simp [insertAt, removeAt, setAt]
  | cons c cs ih =>
    cases i with
    | zero =>
      rw [insertAt_zero, setAt_zero]
      rw [removeAt_cons_succ, removeAt_cons_zero]
      simp
    | succ i =>
      rw [insertAt_cons_succ, removeAt_cons_succ, setAt_cons_succ]
      rw [ih (by simpa using h)]

theorem removeAt_insertAt_succ_self {cs : List FNode} {i : Nat} (n : FNode)
    (h : i < cs.length) : removeAt (insertAt cs (i + 1) n) i = setAt cs i n := by
  induction cs generalizing i with
  | nil => simp at h
  | cons c cs ih =>
    cases i with
    | zero =>
      rw [insertAt_cons_succ, insertAt_zero, setAt_zero]
      rw [removeAt_cons_zero]
      simp
    | succ i =>
      rw [insertAt_cons_succ, removeAt_cons_succ, setAt_cons_succ]
      rw [ih (by simpa using h)]

theorem getElem?_setAt_ne {cs : List FNode} {i j : Nat} (n : FNode)
    (hj : j ≠ i) (hi : i < cs.length) : (setAt cs i n)[j]? = cs[j]? := by
  induction cs generalizing i j with
  | nil => simp at hi
  | cons c cs ih =>
    cases i with
    | zero =>
      rw [setAt_zero]
      cases j with
      | zero => omega
      | succ j => simp
    | succ i =>
      rw [setAt_cons_succ]
      cases j with
      | zero => simp
      | succ j =>
        simp only [List.getElem?_cons_succ]
        exact ih (by omega) (by simpa using hi)

theorem getElem?_setAt_self {cs : List FNode} {i : Nat} (n : FNode)
    (h : i < cs.length) : (setAt cs i n)[i]? = some n := by
  induction cs generalizing i with
  | nil => simp at h
  | cons c cs ih =>
    cases i with
    | zero => simp [setAt_zero]
    | succ i =>
      rw [setAt_cons_succ]
      simp only [List.getElem?_cons_succ]
      exact ih (by simpa using h)

theorem mem_insertAt {cs : List FNode} {a : FNode} (i : Nat) (n : FNode)
    (h : a ∈ cs) : a ∈ insertAt cs i n := by
  unfold insertAt
  have hsplit : a ∈ cs.take i ++ cs.drop i := by
    rw [List.take_append_drop]; exact h
  rcases List.mem_append.mp hsplit with h1 | h2
  · exact List.mem_append.mpr (Or.inl h1)
  · exact List.mem_append.mpr (Or.inr (List.mem_cons_of_mem n h2))

theorem self_mem_insertAt (cs : List FNode) (i : Nat) (n : FNode) :
    n ∈ insertAt cs i n := by
  unfold insertAt
  exact List.mem_append.mpr (Or.inr (List.mem_cons_self n _))

theorem self_mem_setAt (cs : List FNode) (i : Nat) (n : FNode) :
    n ∈ setAt cs i n := by
  unfold setAt
  exact List.mem_append.mpr (Or.inr (List.mem_cons_self n _))

theorem self_mem_removeAt_insertAt {cs : List FNode} {i : Nat} (n : FNode)
    (h : i ≤ cs.length) : n ∈ removeAt (insertAt cs i n) (i + 1) := by
  rw [removeAt_insertAt n h]
  exact self_mem_setAt cs i n

theorem indexOfById_lt_length {cs : List FNode} {k i : Nat}
    (h : indexOfById cs k = some i) : i < cs.length := by
  unfold indexOfById at h
  induction cs generalizing i with
  | nil => simp [List.findIdx?_nil] at h
  | cons c cs ih =>
    have hcons : (c :: cs).findIdx? (fun x => x.id == k) =
        if c.id == k then some 0 else ((cs.findIdx? (fun x => x.id == k)).map (fun j => j + 1)) := by
      simp [List.findIdx?_cons]
    rw [hcons] at h
    by_cases hc : (c.id == k) = true
    · rw [if_pos hc] at h
      injection h with h
      simp [List.length_cons]
      omega
    · rw [if_neg hc] at h
      simp only [Option.map_eq_some'] at h
      rcases h with ⟨j, hj, hji⟩
      have hlt := ih hj
      simp [List.length_cons]
      omega

/-! ### Characterization helpers for the Create handlers -/

theorem finalizeCreation_flags_of_success {e : CreateEnv}
    (h : (finalizeCreation e).outcome = .success) :
    isValidSvgContent e.svgContent = true ∧ e.lookupThrows = false ∧
    e.frameFound = true ∧ e.frameRemoved = false ∧ e.frameType = "FRAME" ∧
    e.frameChildren = [] ∧ e.createThrows = false ∧
    (∃ c, e.createdNode = some c) ∧ e.appendThrows = false ∧
    e.postludeThrows = false := by
  unfold finalizeCreation at h
  rcases hcn : e.createdNode with _ | created <;> rw [hcn] at h <;>
    split_ifs at h with h1 h2 h3 h4 h5 h6 h7 <;>
    simp at h <;>
    simp_all [List.length_eq_zero, not_lt, Nat.le_zero]

theorem finalizeCreation001_flags_of_success {e : CreateEnv}
    (h : (finalizeCreation001 e).outcome = .success) :
    isValidSvgContent e.svgContent = true ∧ e.lookupThrows = false ∧
    e.frameFound = true ∧ e.frameRemoved = false ∧ e.frameType = "FRAME" ∧
    e.frameChildren = [] ∧ e.createThrows = false ∧
    (∃ c, e.createdNode = some c) ∧ e.appendThrows = false ∧
    e.postludeThrows = false := by
  unfold finalizeCreation001 at h
  rcases hcn : e.createdNode with _ | created <;> rw [hcn] at h <;>
    split_ifs at h with h1 h2 h3 h4 h5 h6 h7 <;>
    simp at h <;>
    simp_all [List.length_eq_zero, not_lt, Nat.le_zero]

theorem finalizeCreation_eq_of_flags {e : CreateEnv} {created : FNode}
    (hvalid : isValidSvgContent e.svgContent = true)
    (hlt : e.lookupThrows = false) (hff : e.frameFound = true)
    (hfr : e.frameRemoved = false) (hft : e.frameType = "FRAME")
    (hfc : e.frameChildren = []) (hct : e.createThrows = false)
    (hcn : e.createdNode = some created) (hat : e.appendThrows = false)
    (hpt : e.postludeThrows = false) :
    finalizeCreation e =
      ⟨[centeredNode e.frameWidth e.frameHeight { created with name := "AI Generated Design" }],
        false, .success, true, true⟩ := by
  unfold finalizeCreation
  rw [hcn]
  simp [hvalid, hlt, hff, hfr, hft, hfc, hct, hat, hpt]

theorem finalizeCreation_aborts_of_bad_revalidation {e : CreateEnv}
    (hb : e.frameFound = false ∨ e.frameRemoved = true ∨ e.frameType ≠ "FRAME" ∨
      e.frameChildren ≠ []) :
    (finalizeCreation e).children = e.frameChildren ∧
    (finalizeCreation e).outcome ≠ .success := by
  unfold finalizeCreation
  rcases hcn : e.createdNode with _ | created <;> dsimp only <;>
    split_ifs with h1 h2 h3 h4 h5 h6 h7 <;>
    simp_all [List.length_eq_zero, not_lt, Nat.le_zero]

theorem finalizeCreation001_aborts_of_bad_revalidation {e : CreateEnv}
    (hb : e.frameFound = false ∨ e.frameRemoved = true ∨ e.frameType ≠ "FRAME" ∨
      e.frameChildren ≠ []) :
    (finalizeCreation001 e).children = e.frameChildren ∧
    (finalizeCreation001 e).outcome ≠ .success := by
  unfold finalizeCreation001
  rcases hcn : e.createdNode with _ | created <;> dsimp only <;>
    split_ifs with h1 h2 h3 h4 h5 h6 h7 <;>
    simp_all [List.length_eq_zero, not_lt, Nat.le_zero]

/-! ### Characterization helpers for the Modify handlers -/

theorem configuredNode_id (e : ReplaceEnv) (orig created : FNode) :
    (configuredNode e orig created).id = created.id := by
  unfold configuredNode
  split_ifs <;> rfl

theorem configuredNode001_id (e : ReplaceEnv) (orig created : FNode) :
    (configuredNode001 e orig created).id = created.id := by
  unfold configuredNode001
  split_ifs <;> rfl

theorem removeAt_insertPhaseChildren {cs : List FNode} {i : Nat} (n : FNode)
    (h : i ≤ cs.length) :
    removeAt (insertPhaseChildren cs i n) (i + 1) = setAt cs i n := by
  unfold insertPhaseChildren
  exact removeAt_insertAt n h

theorem mem_insertPhaseChildren {cs : List FNode} {a : FNode} (i : Nat) (n : FNode)
    (h : a ∈ cs) : a ∈ insertPhaseChildren cs i n := by
  unfold insertPhaseChildren
  exact mem_insertAt i n h

theorem mem_insertPhaseChildren001 {cs : List FNode} {a : FNode} (i : Nat) (n : FNode)
    (h : a ∈ cs) : a ∈ insertPhaseChildren001 cs i n := by
  unfold insertPhaseChildren001
  exact mem_insertAt (i + 1) n h

theorem replaceElementWithSvg_eq_of_flags {e : ReplaceEnv} {oid : Nat}
    {orig created : FNode} {index : Nat}
    (hval : isValidSvgContent e.svgContent = true)
    (hoid : e.originalElementId = some oid)
    (hlt : e.lookupThrows = false)
    (hlf : e.lookupFound = some orig)
    (hpp : e.parentIsPage = false)
    (hct : e.createThrows = false)
    (hcn : e.createdNode = some created)
    (hidx : indexOfById e.children orig.id = some index)
    (hit : e.insertThrows = false)
    (hst : e.setPosThrows = false)
    (hrt : e.removeThrows = false)
    (hpt : e.postludeThrows = false) :
    replaceElementWithSvg e =
      ⟨removeAt (insertPhaseChildren e.children index (configuredNode e orig created)) (index + 1),
        false, .success, true, true⟩ := by
  unfold replaceElementWithSvg replaceTryBlock
  rw [hoid, hlf, hcn]
  dsimp only
  rw [hidx]
  dsimp only
  simp [hval, hlt, hpp, hct, hit, hst, hrt, hpt]

theorem replaceElementWithSvg_flags_of_success {e : ReplaceEnv}
    (h : (replaceElementWithSvg e).outcome = .success) :
    isValidSvgContent e.svgContent = true ∧
    (∃ oid, e.originalElementId = some oid) ∧
    e.lookupThrows = false ∧
    (∃ orig created index, e.lookupFound = some orig ∧
      e.createdNode = some created ∧
      indexOfById e.children orig.id = some index) ∧
    e.parentIsPage = false ∧ e.createThrows = false ∧
    e.insertThrows = false ∧ e.setPosThrows = false ∧
    e.removeThrows = false ∧ e.postludeThrows = false := by
  unfold replaceElementWithSvg at h
  by_cases hval0 : (!isValidSvgContent e.svgContent) = true
  · rw [if_pos hval0] at h
    simp at h
  rw [if_neg hval0] at h
  have hval : isValidSvgContent e.svgContent = true := by
    simpa using hval0
  rcases hoid : e.originalElementId with _ | oid
  · rw [hoid] at h
    dsimp only at h
    simp at h
  rw [hoid] at h
  dsimp only at h
  by_cases hlt0 : e.lookupThrows = true
  · rw [if_pos hlt0] at h
    simp at h
  rw [if_neg hlt0] at h
  rcases hlf : e.lookupFound with _ | orig
  · rw [hlf] at h
    dsimp only at h
    simp at h
  rw [hlf] at h
  dsimp only at h
  by_cases hpp0 : e.parentIsPage = true
  · rw [if_pos hpp0] at h
    simp at h
  rw [if_neg hpp0] at h
  unfold replaceTryBlock at h
  by_cases hct0 : e.createThrows = true
  · rw [if_pos hct0] at h
    simp at h
  rw [if_neg hct0] at h
  rcases hcn : e.createdNode with _ | created
  · rw [hcn] at h
    dsimp only at h
    simp at h
  rw [hcn] at h
  dsimp only at h
  rcases hidx : indexOfById e.children orig.id with _ | index
  · rw [hidx] at h
    dsimp only at h
    simp at h
  rw [hidx] at h
  dsimp only at h
  by_cases hit0 : e.insertThrows = true
  · rw [if_pos hit0] at h
    simp at h
  rw [if_neg hit0] at h
  by_cases hst0 : e.setPosThrows = true
  · rw [if_pos hst0] at h
    simp at h
  rw [if_neg hst0] at h
  by_cases hrt0 : e.removeThrows = true
  · rw [if_pos hrt0] at h
    simp at h
  rw [if_neg hrt0] at h
  by_cases hpt0 : e.postludeThrows = true
  · rw [if_pos hpt0] at h
    simp at h
  exact ⟨hval, ⟨oid, rfl⟩, by simpa using hlt0,
    ⟨orig, created, index, rfl, rfl, hidx⟩, by simpa using hpp0,
    by simpa using hct0, by simpa using hit0, by simpa using hst0,
    by simpa using hrt0, by simpa using hpt0⟩

theorem replace_success_spec {e : ReplaceEnv}
    (h : (replaceElementWithSvg e).outcome = .success) :
    ∃ orig created index, e.lookupFound = some orig ∧
      e.createdNode = some created ∧
      indexOfById e.children orig.id = some index ∧
      index < e.children.length ∧
      (replaceElementWithSvg e).children =
        setAt e.children index (configuredNode e orig created) := by
  obtain ⟨hval, ⟨oid, hoid⟩, hlt, ⟨orig, created, index, hlf, hcn, hidx⟩,
    hpp, hct, hit, hst, hrt, hpt⟩ := replaceElementWithSvg_flags_of_success h
  have hlen := indexOfById_lt_length hidx
  have heq := replaceElementWithSvg_eq_of_flags hval hoid hlt hlf hpp hct hcn hidx hit hst hrt hpt
  refine ⟨orig, created, index, hlf, hcn, hidx, hlen, ?_⟩
  rw [heq]
  exact removeAt_insertPhaseChildren _ (le_of_lt hlen)

/-! ### Claim C6: invalid artifact rejected before any document access -/

/-- Claim C6: for every artifact whose content, after trimming whitespace and
case-folding, does not begin with the SVG root tag, both the finalize-creation
(Create) and replace-element-with-svg (Modify) handlers of code.js reject it
with an invalid-content error before any document access: no lookup, read or
write happens, the busy flag is cleared, and the frame children respectively
the parent children are exactly as before the call. -/
theorem C6_invalid_artifact_rejected_before_document_access
    (ce : CreateEnv) (re : ReplaceEnv)
    (hc : "<svg".data.isPrefixOf ((trimChars ce.svgContent.data).map Char.toLower) = false)
    (hr : "<svg".data.isPrefixOf ((trimChars re.svgContent.data).map Char.toLower) = false) :
    (finalizeCreation ce).docAccessed = false ∧
    (finalizeCreation ce).children = ce.frameChildren ∧
    (finalizeCreation ce).isProcessing = false ∧
    (finalizeCreation ce).outcome = .errored "Invalid SVG content received for creation." ∧
    (replaceElementWithSvg re).docAccessed = false ∧
    (replaceElementWithSvg re).children = re.children ∧
    (replaceElementWithSvg re).isProcessing = false ∧
    (replaceElementWithSvg re).outcome = .errored "Invalid SVG content received for replacement." := by
  have hvc : isValidSvgContent ce.svgContent = false := by
    unfold isValidSvgContent
    rw [hc]
    simp
  have hvr : isValidSvgContent re.svgContent = false := by
    unfold isValidSvgContent
    rw [hr]
    simp
  unfold finalizeCreation replaceElementWithSvg
  rw [hvc, hvr]
  simp

/-- Concrete environment for the C6 witness: plain-text artifact content. -/
def ceC6 : CreateEnv :=
  { svgContent := "hello world", busy0 := true, lookupThrows := false,
    frameFound := true, frameRemoved := false, frameType := "FRAME",
    frameChildren := [], frameWidth := 400, frameHeight := 300,
    createThrows := false, createdNode := none, appendThrows := false,
    postludeThrows := false }

/-- Concrete environment for the C6 witness, Modify side. -/
def reC6 : ReplaceEnv :=
  { svgContent := "hello world", originalElementId := some 7, busy0 := true,
    lookupThrows := false, lookupFound := none, parentIsPage := false,
    children := [], createThrows := false, createdNode := none,
    insertThrows := false, setPosThrows := false, hasResize := true,
    resizeThrows := false, newHasConstraintsProp := true,
    constraintAssignThrows := false, removeThrows := false,
    postludeThrows := false }

/-- Witness for C6 at a concrete plain-text artifact. -/
theorem C6_witness :
    (finalizeCreation ceC6).docAccessed = false ∧
    (finalizeCreation ceC6).children = ceC6.frameChildren ∧
    (finalizeCreation ceC6).isProcessing = false ∧
    (finalizeCreation ceC6).outcome = .errored "Invalid SVG content received for creation." ∧
    (replaceElementWithSvg reC6).docAccessed = false ∧
    (replaceElementWithSvg reC6).children = reC6.children ∧
    (replaceElementWithSvg reC6).isProcessing = false ∧
    (replaceElementWithSvg reC6).outcome = .errored "Invalid SVG content received for replacement." :=
  C6_invalid_artifact_rejected_before_document_access ceC6 reC6 (by decide) (by decide)

/-! ### Claim C7: Create apply step re-validates the container -/

/-- Claim C7: the finalize-creation handler re-fetches the container and
succeeds only if it still exists, is still a FRAME, and still has zero
children; when any of these re-validations fails the handler aborts without
mutation and the container children are unchanged.  Proved for both the
code.js and the part_001 variant of the handler. -/
theorem C7_create_revalidation (e : CreateEnv) :
    ((finalizeCreation e).outcome = .success →
      e.frameFound = true ∧ e.frameRemoved = false ∧ e.frameType = "FRAME" ∧
      e.frameChildren = []) ∧
    ((finalizeCreation001 e).outcome = .success →
      e.frameFound = true ∧ e.frameRemoved = false ∧ e.frameType = "FRAME" ∧
      e.frameChildren = []) ∧
    ((e.frameFound = false ∨ e.frameRemoved = true ∨ e.frameType ≠ "FRAME" ∨
        e.frameChildren ≠ []) →
      (finalizeCreation e).children = e.frameChildren ∧
      (finalizeCreation e).outcome ≠ .success ∧
      (finalizeCreation001 e).children = e.frameChildren ∧
      (finalizeCreation001 e).outcome ≠ .success) := by
  refine ⟨?_, ?_, ?_⟩
  · intro h
    have := finalizeCreation_flags_of_success h
    tauto
  · intro h
    have := finalizeCreation001_flags_of_success h
    tauto
  · intro hb
    have h1 := finalizeCreation_aborts_of_bad_revalidation hb
    have h2 := finalizeCreation001_aborts_of_bad_revalidation hb
    tauto

/-- Concrete environment for the C7 witness: the container gained a child
between resolution and apply, so the apply step aborts without mutation. -/
def ceC7 : CreateEnv :=
  { svgContent := "<svg width=\"10\" height=\"10\"></svg>", busy0 := true,
    lookupThrows := false, frameFound := true, frameRemoved := false,
    frameType := "FRAME",
    frameChildren := [{ id := 9, name := "intruder", x := 0, y := 0,
                        width := 10, height := 10, constraints := none }],
    frameWidth := 400, frameHeight := 300, createThrows := false,
    createdNode := some { id := 5, name := "svg", x := 0, y := 0,
                          width := 20, height := 20, constraints := none },
    appendThrows := false, postludeThrows := false }

/-- Witness for C7 at a concrete environment whose container is no longer
empty at apply time. -/
theorem C7_witness :
    (finalizeCreation ceC7).children = ceC7.frameChildren ∧
    (finalizeCreation ceC7).outcome ≠ .success ∧
    (finalizeCreation001 ceC7).children = ceC7.frameChildren ∧
    (finalizeCreation001 ceC7).outcome ≠ .success :=
  (C7_create_revalidation ceC7).2.2 (by right; right; right; decide)

/-! ### Further Modify-flow helpers used by C4 -/

theorem replace_never_neither (e : ReplaceEnv) (orig : FNode)
    (hlf : e.lookupFound = some orig)
    (hid : ∃ c ∈ e.children, c.id = orig.id) :
    (∃ c ∈ (replaceElementWithSvg e).children, c.id = orig.id) ∨
    (∃ created, e.createdNode = some created ∧
      ∃ c ∈ (replaceElementWithSvg e).children, c.id = created.id) := by
  unfold replaceElementWithSvg
  rw [hlf]
  rcases hoid : e.originalElementId with _ | oid
  · dsimp only
    split_ifs <;> exact Or.inl hid
  · dsimp only
    split_ifs with h1 h2 h3
    · exact Or.inl hid
    · exact Or.inl hid
    · exact Or.inl hid
    · unfold replaceTryBlock
      by_cases hct : e.createThrows = true
      · rw [if_pos hct]
        exact Or.inl hid
      rw [if_neg hct]
      rcases hcn : e.createdNode with _ | created
      · dsimp only
        exact Or.inl hid
      · dsimp only
        rcases hidx : indexOfById e.children orig.id with _ | index
        · dsimp only
          exact Or.inl hid
        · dsimp only
          have hlen := indexOfById_lt_length hidx
          split_ifs with hc1 hc2 hc3 hc4
          · exact Or.inl hid
          · obtain ⟨c, hcmem, hcid⟩ := hid
            exact Or.inl ⟨c, mem_insertPhaseChildren _ _ hcmem, hcid⟩
          · obtain ⟨c, hcmem, hcid⟩ := hid
            exact Or.inl ⟨c, mem_insertPhaseChildren _ _ hcmem, hcid⟩
          · refine Or.inr ⟨created, rfl, ?_⟩
            rw [removeAt_insertPhaseChildren _ (le_of_lt hlen)]
            exact ⟨configuredNode e orig created, self_mem_setAt _ _ _,
              configuredNode_id e orig created⟩
          · refine Or.inr ⟨created, rfl, ?_⟩
            rw [removeAt_insertPhaseChildren _ (le_of_lt hlen)]
            exact ⟨configuredNode e orig created, self_mem_setAt _ _ _,
              configuredNode_id e orig created⟩

theorem replace_unchanged_of_early_error (e : ReplaceEnv)
    (hst : e.setPosThrows = false) (hrt : e.removeThrows = false)
    (hpt : e.postludeThrows = false) (m : String)
    (h : (replaceElementWithSvg e).outcome = .errored m) :
    (replaceElementWithSvg e).children = e.children := by
  unfold replaceElementWithSvg replaceTryBlock at h ⊢
  rw [hst, hrt, hpt] at h ⊢
  rcases hoid : e.originalElementId with _ | oid
  · dsimp only
    split_ifs <;> rfl
  · rw [hoid] at h
    dsimp only at h ⊢
    rcases hlf : e.lookupFound with _ | orig
    · dsimp only
      split_ifs <;> rfl
    · rw [hlf] at h
      dsimp only at h ⊢
      rcases hcn : e.createdNode with _ | created
      · dsimp only
        split_ifs <;> rfl
      · rw [hcn] at h
        dsimp only at h ⊢
        rcases hidx : indexOfById e.children orig.id with _ | index
        · dsimp only
          split_ifs <;> rfl
        · rw [hidx] at h
          dsimp only at h ⊢
          split_ifs at h ⊢ <;> first | rfl | simp_all

/-! ### Claim C1: sibling reflow law -/

/-- The original element used in the Modify counterexamples: 100 by 50 at
position (10, 200). -/
def origE1 : FNode :=
  { id := 1, name := "E", x := 10, y := 200, width := 100, height := 50,
    constraints := none }

/-- A sibling below the original, top edge at y 260. -/
def sibS1 : FNode :=
  { id := 2, name := "S", x := 10, y := 260, width := 100, height := 40,
    constraints := none }

/-- The replacement node as produced by the importer: natural size 100 by
120. -/
def newN1 : FNode :=
  { id := 3, name := "svg", x := 0, y := 0, width := 100, height := 120,
    constraints := none }

/-- Concrete successful Modify environment for C1. -/
def reC1 : ReplaceEnv :=
  { svgContent := "<svg height=120></svg>", originalElementId := some 1,
    busy0 := true, lookupThrows := false, lookupFound := some origE1,
    parentIsPage := false, children := [origE1, sibS1], createThrows := false,
    createdNode := some newN1, insertThrows := false, setPosThrows := false,
    hasResize := true, resizeThrows := false, newHasConstraintsProp := true,
    constraintAssignThrows := false, removeThrows := false,
    postludeThrows := false }

/-- Claim C1 counterexample: a successful Modify where the replacement
renders natively at height 120 against an original of height 50, so delta is
70 and exceeds any small tolerance (0.01 here), and the sibling top edge 260
is at or below the original bottom edge 250 minus the tolerance.  The claim
predicts the sibling at y 330 = 260 + 70 afterwards, but the code performs no
reflow and the sibling stays at y 260. -/
theorem C1_counterexample :
    (replaceElementWithSvg reC1).outcome = .success ∧
    (replaceElementWithSvg reC1).children.map FNode.y = [200, 260] ∧
    ¬ ((replaceElementWithSvg reC1).children.map FNode.y = [200, 330]) ∧
    newN1.height - origE1.height = 70 ∧
    sibS1.y ≥ origE1.y + origE1.height - 1 / 100 ∧
    |newN1.height - origE1.height| > 1 / 100 := by
  refine ⟨by decide, by decide, by decide, ?_, ?_, ?_⟩ <;>
    norm_num [newN1, origE1, sibS1]

/-- Claim C1 (corrected): a successful Modify performs no sibling reflow at
all: every child entry other than the replaced one — whatever its
pre-operation y relative to the original bottom edge — is exactly its
pre-operation entry, so no sibling y changes by delta. -/
theorem C1_amended_no_reflow (e : ReplaceEnv) (orig : FNode) (index j : Nat)
    (h : (replaceElementWithSvg e).outcome = .success)
    (hlf : e.lookupFound = some orig)
    (hidx : indexOfById e.children orig.id = some index)
    (hj : j ≠ index) :
    (replaceElementWithSvg e).children[j]? = e.children[j]? := by
  obtain ⟨orig2, created, index2, hlf2, hcn2, hidx2, hlen, hch⟩ :=
    replace_success_spec h
  rw [hlf] at hlf2
  injection hlf2 with horig
  subst horig
  rw [hidx] at hidx2
  injection hidx2 with hieq
  subst hieq
  rw [hch]
  exact getElem?_setAt_ne _ hj hlen

/-- Witness for the corrected C1: in the concrete run the sibling entry at
position 1 is untouched. -/
theorem C1_witness :
    (replaceElementWithSvg reC1).children[1]? = reC1.children[1]? :=
  C1_amended_no_reflow reC1 origE1 0 1 (by decide) (by decide) (by decide)
    (by decide)

/-! ### Claim C3: replacement left at natural size -/

/-- Concrete successful Modify environment for C3 (same data as C1). -/
def reC3 : ReplaceEnv :=
  { svgContent := "<svg height=120></svg>", originalElementId := some 1,
    busy0 := true, lookupThrows := false, lookupFound := some origE1,
    parentIsPage := false, children := [origE1, sibS1], createThrows := false,
    createdNode := some newN1, insertThrows := false, setPosThrows := false,
    hasResize := true, resizeThrows := false, newHasConstraintsProp := true,
    constraintAssignThrows := false, removeThrows := false,
    postludeThrows := false }

/-- Claim C3 counterexample: in a successful Modify the replacement rendered
natively at height 120 but ends at the original's height 50 and width 100:
the flow does force the replacement to the original's exact size, so it is
not left at its natural size. -/
theorem C3_counterexample :
    (replaceElementWithSvg reC3).outcome = .success ∧
    (replaceElementWithSvg reC3).children.map FNode.height = [50, 40] ∧
    (replaceElementWithSvg reC3).children.map FNode.width = [100, 100] ∧
    newN1.height = 120 ∧
    ¬ ((replaceElementWithSvg reC3).children.map FNode.height = [120, 40]) := by
  decide

theorem configuredNode_size_of_resize {e : ReplaceEnv} {orig created : FNode}
    (hhr : e.hasResize = true) (hrt : e.resizeThrows = false) :
    (configuredNode e orig created).width = orig.width ∧
    (configuredNode e orig created).height = orig.height := by
  unfold configuredNode
  simp only [hhr, hrt]
  constructor <;> · split_ifs <;> first | rfl | simp_all

/-- Claim C3 (corrected): when the replacement supports resize and the resize
call does not throw, a successful code.js Modify forces the replacement node
to the original's exact width and height (the forced-resize variant); the
natural-size-plus-reflow policy is not implemented. -/
theorem C3_amended_forced_resize (e : ReplaceEnv) (orig created : FNode)
    (h : (replaceElementWithSvg e).outcome = .success)
    (hlf : e.lookupFound = some orig)
    (hcn : e.createdNode = some created)
    (hhr : e.hasResize = true)
    (hrt : e.resizeThrows = false) :
    ∃ index, indexOfById e.children orig.id = some index ∧
      (replaceElementWithSvg e).children[index]? =
        some (configuredNode e orig created) ∧
      (configuredNode e orig created).width = orig.width ∧
      (configuredNode e orig created).height = orig.height := by
  obtain ⟨orig2, created2, index, hlf2, hcn2, hidx, hlen, hch⟩ :=
    replace_success_spec h
  rw [hlf] at hlf2
  injection hlf2 with h1
  subst h1
  rw [hcn] at hcn2
  injection hcn2 with h2
  subst h2
  obtain ⟨hw, hh⟩ := @configuredNode_size_of_resize e orig created hhr hrt
  refine ⟨index, hidx, ?_, hw, hh⟩
  rw [hch]
  exact getElem?_setAt_self _ hlen

/-- Witness for the corrected C3 at the concrete run. -/
theorem C3_witness :
    ∃ index, indexOfById reC3.children origE1.id = some index ∧
      (replaceElementWithSvg reC3).children[index]? =
        some (configuredNode reC3 origE1 newN1) ∧
      (configuredNode reC3 origE1 newN1).width = origE1.width ∧
      (configuredNode reC3 origE1 newN1).height = origE1.height :=
  C3_amended_forced_resize reC3 origE1 newN1 (by decide) (by decide)
    (by decide) (by decide) (by decide)

/-! ### Claim C8: insertion index and momentary coexistence order -/

/-- Concrete part_001 Modify environment for the C8 counterexample, frozen at
the failing removal of the original so the coexistence state is observable:
one child (the original, id 1) and a replacement (id 2). -/
def reC8 : ReplaceEnv :=
  { svgContent := "<svg width=8></svg>", originalElementId := some 1,
    busy0 := true, lookupThrows := false,
    lookupFound := some { id := 1, name := "E", x := 10, y := 200,
                          width := 100, height := 50, constraints := none },
    parentIsPage := false,
    children := [{ id := 1, name := "E", x := 10, y := 200, width := 100,
                   height := 50, constraints := none }],
    createThrows := false,
    createdNode := some { id := 2, name := "svg", x := 0, y := 0,
                          width := 100, height := 80, constraints := none },
    insertThrows := false, setPosThrows := false, hasResize := true,
    resizeThrows := false, newHasConstraintsProp := true,
    constraintAssignThrows := false, removeThrows := true,
    postludeThrows := false }

/-- Claim C8 counterexample: in the part_001 variant the new node is inserted
at index + 1, so during the momentary coexistence (frozen here by the failing
removal) the children are original-then-new (ids [1, 2]): the new node is
immediately after the original, not immediately before it, and it was not
inserted at the index the original occupied. -/
theorem C8_counterexample :
    (replaceElementWithSvg001 reC8).children.map FNode.id = [1, 2] ∧
    ¬ ((replaceElementWithSvg001 reC8).children.map FNode.id = [2, 1]) := by
  decide

/-- Claim C8 (corrected): the insertion index differs between the two handler
variants.  In the code.js variant the new node is inserted at the original's
index, so during the momentary coexistence it is immediately before the
original, and a successful run removes the original afterwards, leaving the
configured replacement at that index; in the part_001 variant the new node is
inserted at index + 1, immediately after the original. -/
theorem C8_amended_insertion_order (e : ReplaceEnv) (orig created : FNode)
    (index : Nat)
    (hlf : e.lookupFound = some orig)
    (hcn : e.createdNode = some created)
    (hidx : indexOfById e.children orig.id = some index)
    (hat : e.children[index]? = some orig) :
    (insertPhaseChildren e.children index (configuredNode e orig created))[index]? =
      some (configuredNode e orig created) ∧
    (insertPhaseChildren e.children index (configuredNode e orig created))[index + 1]? =
      some orig ∧
    (insertPhaseChildren001 e.children index (configuredNode001 e orig created))[index]? =
      some orig ∧
    (insertPhaseChildren001 e.children index (configuredNode001 e orig created))[index + 1]? =
      some (configuredNode001 e orig created) ∧
    ((replaceElementWithSvg e).outcome = .success →
      (replaceElementWithSvg e).children =
        setAt e.children index (configuredNode e orig created)) := by
  have hlen := indexOfById_lt_length hidx
  refine ⟨?_, ?_, ?_, ?_, ?_⟩
  · unfold insertPhaseChildren
    exact getElem?_insertAt_self _ (le_of_lt hlen)
  · unfold insertPhaseChildren
    rw [getElem?_insertAt_succ _ (le_of_lt hlen)]
    exact hat
  · unfold insertPhaseChildren001
    rw [getElem?_insertAt_lt _ (by omega) (by omega)]
    exact hat
  · unfold insertPhaseChildren001
    exact getElem?_insertAt_self _ (by omega)
  · intro h
    obtain ⟨orig2, created2, index2, hlf2, hcn2, hidx2, hlen2, hch⟩ :=
      replace_success_spec h
    rw [hlf] at hlf2
    injection hlf2 with h1
    subst h1
    rw [hcn] at hcn2
    injection hcn2 with h2
    subst h2
    rw [hidx] at hidx2
    injection hidx2 with h3
    subst h3
    exact hch

/-- Concrete successful code.js Modify environment for the C8 witness. -/
def reC8w : ReplaceEnv :=
  { svgContent := "<svg width=9></svg>", originalElementId := some 1,
    busy0 := true, lookupThrows := false,
    lookupFound := some { id := 1, name := "E", x := 10, y := 200,
                          width := 100, height := 50, constraints := none },
    parentIsPage := false,
    children := [{ id := 1, name := "E", x := 10, y := 200, width := 100,
                   height := 50, constraints := none }],
    createThrows := false,
    createdNode := some { id := 2, name := "svg", x := 0, y := 0,
                          width := 100, height := 80, constraints := none },
    insertThrows := false, setPosThrows := false, hasResize := true,
    resizeThrows := false, newHasConstraintsProp := true,
    constraintAssignThrows := false, removeThrows := false,
    postludeThrows := false }

/-- The original element of the C8 witness environment. -/
def origC8w : FNode :=
  { id := 1, name := "E", x := 10, y := 200, width := 100, height := 50,
    constraints := none }

/-- The created node of the C8 witness environment. -/
def newC8w : FNode :=
  { id := 2, name := "svg", x := 0, y := 0, width := 100, height := 80,
    constraints := none }

/-- Witness for the corrected C8 at a concrete one-child parent. -/
theorem C8_witness :
    (insertPhaseChildren reC8w.children 0 (configuredNode reC8w origC8w newC8w))[0]? =
      some (configuredNode reC8w origC8w newC8w) ∧
    (insertPhaseChildren reC8w.children 0 (configuredNode reC8w origC8w newC8w))[0 + 1]? =
      some origC8w ∧
    (insertPhaseChildren001 reC8w.children 0 (configuredNode001 reC8w origC8w newC8w))[0]? =
      some origC8w ∧
    (insertPhaseChildren001 reC8w.children 0 (configuredNode001 reC8w origC8w newC8w))[0 + 1]? =
      some (configuredNode001 reC8w origC8w newC8w) ∧
    ((replaceElementWithSvg reC8w).outcome = .success →
      (replaceElementWithSvg reC8w).children =
        setAt reC8w.children 0 (configuredNode reC8w origC8w newC8w)) :=
  C8_amended_insertion_order reC8w origC8w newC8w 0 (by decide) (by decide)
    (by decide) (by decide)

/-! ### Claim C4: cleanup invariant of the Modify flow -/

/-- Concrete code.js Modify environment for the C4 counterexample: the
original's removal throws after the new node was already inserted under the
same parent, so the catch-block cleanup (which only removes the new node when
its parent differs from the original's parent) leaves both nodes in place. -/
def reC4 : ReplaceEnv :=
  { svgContent := "<svg width=7></svg>", originalElementId := some 1,
    busy0 := true, lookupThrows := false,
    lookupFound := some { id := 1, name := "E", x := 10, y := 200,
                          width := 100, height := 50, constraints := none },
    parentIsPage := false,
    children := [{ id := 1, name := "E", x := 10, y := 200, width := 100,
                   height := 50, constraints := none }],
    createThrows := false,
    createdNode := some { id := 3, name := "svg", x := 0, y := 0,
                          width := 100, height := 80, constraints := none },
    insertThrows := false, setPosThrows := false, hasResize := true,
    resizeThrows := false, newHasConstraintsProp := true,
    constraintAssignThrows := false, removeThrows := true,
    postludeThrows := false }

/-- Claim C4 counterexample: a Modify run that fails when removing the
original (after the new node was inserted and configured) ends with both the
original (id 1) and the replacement (id 3) under the parent — the claimed
never-both invariant does not hold on this failure path. -/
theorem C4_counterexample :
    (replaceElementWithSvg reC4).outcome =
      .errored "Element SVG Import/Replacement Error: remove threw." ∧
    (replaceElementWithSvg reC4).children.any (fun c => c.id == 1) = true ∧
    (replaceElementWithSvg reC4).children.any (fun c => c.id == 3) = true ∧
    (replaceElementWithSvg reC4).children.length = 2 := by
  decide

/-- Claim C4 (corrected): the Modify flow never ends with neither node
present — after any run, a node carrying the original's id or one carrying
the created node's id is under the parent — and on every failure raised
before the insertion (position-set, removal and postlude not throwing), the
parent's children are exactly unchanged, so the new node is cleaned up and
the original untouched.  A failure at or after insertion (such as the
original's removal throwing) can however leave both nodes in place, because
the cleanup removes the new node only when its parent is not the original's
parent. -/
theorem C4_amended_cleanup (e : ReplaceEnv) (orig : FNode)
    (hlf : e.lookupFound = some orig)
    (hid : ∃ c ∈ e.children, c.id = orig.id) :
    ((∃ c ∈ (replaceElementWithSvg e).children, c.id = orig.id) ∨
      (∃ created, e.createdNode = some created ∧
        ∃ c ∈ (replaceElementWithSvg e).children, c.id = created.id)) ∧
    (e.setPosThrows = false → e.removeThrows = false →
      e.postludeThrows = false →
      ∀ m, (replaceElementWithSvg e).outcome = .errored m →
        (replaceElementWithSvg e).children = e.children) :=
  ⟨replace_never_neither e orig hlf hid,
    fun h1 h2 h3 m hm => replace_unchanged_of_early_error e h1 h2 h3 m hm⟩

/-- Concrete Modify environment for the C4 witness: the import produces a
null node, a pre-insertion failure, so the children stay unchanged. -/
def reC4w : ReplaceEnv :=
  { svgContent := "<svg width=6></svg>", originalElementId := some 1,
    busy0 := true, lookupThrows := false,
    lookupFound := some { id := 1, name := "E", x := 10, y := 200,
                          width := 100, height := 50, constraints := none },
    parentIsPage := false,
    children := [{ id := 1, name := "E", x := 10, y := 200, width := 100,
                   height := 50, constraints := none }],
    createThrows := false, createdNode := none,
    insertThrows := false, setPosThrows := false, hasResize := true,
    resizeThrows := false, newHasConstraintsProp := true,
    constraintAssignThrows := false, removeThrows := false,
    postludeThrows := false }

/-- The original element of the C4 witness environment. -/
def origC4w : FNode :=
  { id := 1, name := "E", x := 10, y := 200, width := 100, height := 50,
    constraints := none }

/-- Witness for the corrected C4 at a concrete pre-insertion failure. -/
theorem C4_witness :
    ((∃ c ∈ (replaceElementWithSvg reC4w).children, c.id = origC4w.id) ∨
      (∃ created, reC4w.createdNode = some created ∧
        ∃ c ∈ (replaceElementWithSvg reC4w).children, c.id = created.id)) ∧
    (reC4w.setPosThrows = false → reC4w.removeThrows = false →
      reC4w.postludeThrows = false →
      ∀ m, (replaceElementWithSvg reC4w).outcome = .errored m →
        (replaceElementWithSvg reC4w).children = reC4w.children) :=
  C4_amended_cleanup reC4w origC4w (by decide) (by decide)

/-! ### Claim C2: Create scaling and centering -/

theorem finalizeCreation001_eq_of_flags {e : CreateEnv} {created : FNode}
    (hvalid : isValidSvgContent e.svgContent = true)
    (hlt : e.lookupThrows = false) (hff : e.frameFound = true)
    (hfr : e.frameRemoved = false) (hft : e.frameType = "FRAME")
    (hfc : e.frameChildren = []) (hct : e.createThrows = false)
    (hcn : e.createdNode = some created) (hat : e.appendThrows = false)
    (hpt : e.postludeThrows = false) :
    finalizeCreation001 e =
      ⟨[{ created with name := "AI Generated Design" }], false, .success, true, true⟩ := by
  unfold finalizeCreation001
  rw [hcn]
  simp [hvalid, hlt, hff, hfr, hft, hfc, hct, hat, hpt]

/-- Concrete Create environment for the C2 counterexample: an empty 400 by
300 container receives an artifact whose node renders natively at 600 by
100. -/
def ceC2 : CreateEnv :=
  { svgContent := "<svg width=600 height=100></svg>", busy0 := true,
    lookupThrows := false, frameFound := true, frameRemoved := false,
    frameType := "FRAME", frameChildren := [], frameWidth := 400,
    frameHeight := 300, createThrows := false,
    createdNode := some { id := 5, name := "svg", x := 0, y := 0,
                          width := 600, height := 100, constraints := none },
    appendThrows := false, postludeThrows := false }

/-- Claim C2 counterexample: the 600-wide node exceeds the 400-wide container
(and hence exceeds availableWidth = 400 − 2×padding for every padding ≥ 0),
so the claim mandates a uniform downscale; the code performs no resize and
the node ends at width 600 > 400. -/
theorem C2_counterexample :
    (finalizeCreation ceC2).outcome = .success ∧
    (finalizeCreation ceC2).children.map FNode.width = [600] ∧
    (finalizeCreation ceC2).children.map FNode.height = [100] ∧
    ceC2.frameWidth = 400 ∧
    ¬ ((600 : Rat) ≤ 400) := by
  refine ⟨by decide, by decide, by decide, by decide, by norm_num⟩

/-- Claim C2 (corrected): the Create flow computes no padding, no available
space and no scale: the imported node always keeps its natural width and
height, fitting or not.  In the code.js variant it is then centered at
x = containerWidth/2 − nodeWidth/2 and y = containerHeight/2 − nodeHeight/2;
in the part_001 variant the node is appended with its position left as
imported. -/
theorem C2_amended_no_scaling (e : CreateEnv) (created : FNode)
    (h : (finalizeCreation e).outcome = .success)
    (hcn : e.createdNode = some created) :
    ((finalizeCreation e).children =
      [centeredNode e.frameWidth e.frameHeight
        { created with name := "AI Generated Design" }] ∧
    (centeredNode e.frameWidth e.frameHeight
        { created with name := "AI Generated Design" }).width = created.width ∧
    (centeredNode e.frameWidth e.frameHeight
        { created with name := "AI Generated Design" }).height = created.height ∧
    (centeredNode e.frameWidth e.frameHeight
        { created with name := "AI Generated Design" }).x =
      e.frameWidth / 2 - created.width / 2 ∧
    (centeredNode e.frameWidth e.frameHeight
        { created with name := "AI Generated Design" }).y =
      e.frameHeight / 2 - created.height / 2) ∧
    ((finalizeCreation001 e).outcome = .success →
      (finalizeCreation001 e).children =
        [{ created with name := "AI Generated Design" }] ∧
      ({ created with name := "AI Generated Design" } : FNode).width = created.width ∧
      ({ created with name := "AI Generated Design" } : FNode).x = created.x) := by
  obtain ⟨hval, hlt, hff, hfr, hft, hfc, hct, ⟨c2, hcn2⟩, hat, hpt⟩ :=
    finalizeCreation_flags_of_success h
  rw [hcn] at hcn2
  injection hcn2 with hc2
  subst hc2
  constructor
  · have heq := finalizeCreation_eq_of_flags hval hlt hff hfr hft hfc hct hcn hat hpt
    rw [heq]
    exact ⟨rfl, rfl, rfl, rfl, rfl⟩
  · intro h001
    have heq001 := finalizeCreation001_eq_of_flags hval hlt hff hfr hft hfc hct hcn hat hpt
    rw [heq001]
    exact ⟨rfl, rfl, rfl⟩

/-- Concrete Create environment for the C2 witness: a 100 by 50 node that
fits the 400 by 300 container and is kept at natural size. -/
def ceC2w : CreateEnv :=
  { svgContent := "<svg width=100 height=50></svg>", busy0 := true,
    lookupThrows := false, frameFound := true, frameRemoved := false,
    frameType := "FRAME", frameChildren := [], frameWidth := 400,
    frameHeight := 300, createThrows := false,
    createdNode := some { id := 6, name := "svg", x := 0, y := 0,
                          width := 100, height := 50, constraints := none },
    appendThrows := false, postludeThrows := false }

/-- The created node of the C2 witness environment. -/
def newC2w : FNode :=
  { id := 6, name := "svg", x := 0, y := 0, width := 100, height := 50,
    constraints := none }

/-- Witness for the corrected C2 at a concrete fitting artifact. -/
theorem C2_witness :
    ((finalizeCreation ceC2w).children =
      [centeredNode ceC2w.frameWidth ceC2w.frameHeight
        { newC2w with name := "AI Generated Design" }] ∧
    (centeredNode ceC2w.frameWidth ceC2w.frameHeight
        { newC2w with name := "AI Generated Design" }).width = newC2w.width ∧
    (centeredNode ceC2w.frameWidth ceC2w.frameHeight
        { newC2w with name := "AI Generated Design" }).height = newC2w.height ∧
    (centeredNode ceC2w.frameWidth ceC2w.frameHeight
        { newC2w with name := "AI Generated Design" }).x =
      ceC2w.frameWidth / 2 - newC2w.width / 2 ∧
    (centeredNode ceC2w.frameWidth ceC2w.frameHeight
        { newC2w with name := "AI Generated Design" }).y =
      ceC2w.frameHeight / 2 - newC2w.height / 2) ∧
    ((finalizeCreation001 ceC2w).outcome = .success →
      (finalizeCreation001 ceC2w).children =
        [{ newC2w with name := "AI Generated Design" }] ∧
      ({ newC2w with name := "AI Generated Design" } : FNode).width = newC2w.width ∧
      ({ newC2w with name := "AI Generated Design" } : FNode).x = newC2w.x) :=
  C2_amended_no_scaling ceC2w newC2w (by decide) (by decide)

/-! ### Claim C5: the busy guard -/

/-- Concrete part_001 request environment for the C5 counterexample: a valid
create request arriving while the busy flag is already set. -/
def geC5 : ContextEnv :=
  { busy0 := true, mode := "create", frameId := some 1, elementInfoId := none,
    lookupThrows := false, frameFound := true, frameRemoved := false,
    frameType := "FRAME", frameChildrenCount := 0, elementFound := true,
    elementRemoved := false, exportThrows := false }

/-- Claim C5 counterexample: the part_001 request-ai-generation handler has
no busy guard — a valid create request arriving while the busy flag is set is
processed anyway and posts the proceed-to-backend message that triggers the
Generation Service call, contradicting the claimed rejection of requests
while non-Idle. -/
theorem C5_counterexample :
    geC5.busy0 = true ∧
    (requestAiGeneration geC5).outcome = .proceededCreate ∧
    (requestAiGeneration geC5).backendDispatched = true ∧
    (requestAiGeneration geC5).isProcessing = true := by
  decide

/-- Claim C5 (corrected): the code.js request-ai-context handler does reject
a request arriving while busy — it returns immediately, leaving the flag set,
with no outcome other than the rejection, no backend dispatch and no document
access — but the part_001 request-ai-generation handler has no busy guard at
all: its result is independent of the prior busy flag, so a second request
arriving while non-Idle is processed and can dispatch a second Generation
Service call. -/
theorem C5_amended_busy_guard :
    (∀ e : ContextEnv, e.busy0 = true →
      requestAiContext e = ⟨true, .ignoredBusy, false, false⟩) ∧
    (∀ e : ContextEnv,
      requestAiGeneration e = requestAiGeneration { e with busy0 := false }) := by
  constructor
  · intro e he
    unfold requestAiContext
    rw [he]
    simp
  · intro e
    cases e
    rfl

/-- Concrete code.js request environment for the C5 witness. -/
def ceC5w : ContextEnv :=
  { busy0 := true, mode := "modify", frameId := some 2, elementInfoId := some 3,
    lookupThrows := false, frameFound := true, frameRemoved := false,
    frameType := "FRAME", frameChildrenCount := 1, elementFound := true,
    elementRemoved := false, exportThrows := false }

/-- Witness for the corrected C5 at concrete request environments. -/
theorem C5_witness :
    requestAiContext ceC5w = ⟨true, .ignoredBusy, false, false⟩ ∧
    requestAiGeneration geC5 = requestAiGeneration { geC5 with busy0 := false } :=
  ⟨C5_amended_busy_guard.1 ceC5w (by decide), C5_amended_busy_guard.2 geC5⟩

/-! ### Claim C9: failures surfaced and busy flag reset -/

/-- Concrete Create environment for the C9 counterexample: valid artifact,
but the frame lookup await — which sits outside the try block — throws. -/
def ceC9 : CreateEnv :=
  { svgContent := "<svg width=5></svg>", busy0 := true, lookupThrows := true,
    frameFound := true, frameRemoved := false, frameType := "FRAME",
    frameChildren := [], frameWidth := 400, frameHeight := 300,
    createThrows := false,
    createdNode := some { id := 8, name := "svg", x := 0, y := 0,
                          width := 10, height := 10, constraints := none },
    appendThrows := false, postludeThrows := false }

/-- Claim C9 counterexample: when the frame lookup throws in
finalize-creation (the await at code.js line 255 sits outside the try block),
the exception escapes the handler: no message is surfaced and the busy flag
stays set, leaving the session permanently non-Idle. -/
theorem C9_counterexample :
    (finalizeCreation ceC9).outcome = .unhandled ∧
    (finalizeCreation ceC9).isProcessing = true ∧
    (finalizeCreation ceC9).surfaced = false := by
  decide

/-- Claim C9 (corrected): as long as the node-lookup awaits that sit outside
the try blocks do not throw, every run of finalize-creation and of
replace-element-with-svg ends with the busy flag cleared and a message (error
or success) surfaced, and never escapes unhandled; and every failure of the
part_001 request-ai-generation handler (whose lookup is inside the try)
resets the busy flag.  A throwing outside-try lookup, however, escapes with
the flag still set and nothing surfaced. -/
theorem C9_amended_guaranteed_reset (ce : CreateEnv) (re : ReplaceEnv)
    (ge : ContextEnv) :
    (ce.lookupThrows = false →
      (finalizeCreation ce).outcome ≠ .unhandled ∧
      (finalizeCreation ce).isProcessing = false ∧
      (finalizeCreation ce).surfaced = true) ∧
    (re.lookupThrows = false →
      (replaceElementWithSvg re).outcome ≠ .unhandled ∧
      (replaceElementWithSvg re).isProcessing = false ∧
      (replaceElementWithSvg re).surfaced = true) ∧
    (∀ m, (requestAiGeneration ge).outcome = .errored m →
      (requestAiGeneration ge).isProcessing = false) := by
  refine ⟨?_, ?_, ?_⟩
  · intro hlt
    unfold finalizeCreation
    rcases hcn : ce.createdNode with _ | created <;> dsimp only <;>
      split_ifs <;> simp_all
  · intro hlt
    unfold replaceElementWithSvg replaceTryBlock
    rcases hoid : re.originalElementId with _ | oid <;> dsimp only
    · split_ifs <;> simp_all
    · rcases hlf : re.lookupFound with _ | orig <;> dsimp only
      · split_ifs <;> simp_all
      · rcases hcn : re.createdNode with _ | created <;> dsimp only
        · split_ifs <;> simp_all
        · rcases hidx : indexOfById re.children orig.id with _ | index <;>
            dsimp only
          · split_ifs <;> simp_all
          · split_ifs <;> simp_all
  · intro m hm
    unfold requestAiGeneration at hm ⊢
    split_ifs at hm ⊢ <;> first | rfl | simp_all

/-- Concrete request environment for the C9 witness: the part_001 handler
fails because the target frame vanished; its catch resets the busy flag. -/
def geC9w : ContextEnv :=
  { busy0 := true, mode := "create", frameId := some 4, elementInfoId := none,
    lookupThrows := false, frameFound := false, frameRemoved := false,
    frameType := "FRAME", frameChildrenCount := 0, elementFound := true,
    elementRemoved := false, exportThrows := false }

/-- Concrete Create environment for the C9 witness: invalid artifact, no
lookup throw, error surfaced and busy reset. -/
def ceC9w : CreateEnv :=
  { svgContent := "plain text", busy0 := true, lookupThrows := false,
    frameFound := true, frameRemoved := false, frameType := "FRAME",
    frameChildren := [], frameWidth := 400, frameHeight := 300,
    createThrows := false, createdNode := none, appendThrows := false,
    postludeThrows := false }

/-- Concrete Modify environment for the C9 witness. -/
def reC9w : ReplaceEnv :=
  { svgContent := "plain text", originalElementId := some 1, busy0 := true,
    lookupThrows := false, lookupFound := none, parentIsPage := false,
    children := [], createThrows := false, createdNode := none,
    insertThrows := false, setPosThrows := false, hasResize := true,
    resizeThrows := false, newHasConstraintsProp := true,
    constraintAssignThrows := false, removeThrows := false,
    postludeThrows := false }

/-- Witness for the corrected C9 at concrete environments. -/
theorem C9_witness :
    ((finalizeCreation ceC9w).outcome ≠ .unhandled ∧
      (finalizeCreation ceC9w).isProcessing = false ∧
      (finalizeCreation ceC9w).surfaced = true) ∧
    ((replaceElementWithSvg reC9w).outcome ≠ .unhandled ∧
      (replaceElementWithSvg reC9w).isProcessing = false ∧
      (replaceElementWithSvg reC9w).surfaced = true) ∧
    ((requestAiGeneration geC9w).isProcessing = false) :=
  ⟨(C9_amended_guaranteed_reset ceC9w reC9w geC9w).1 (by decide),
    (C9_amended_guaranteed_reset ceC9w reC9w geC9w).2.1 (by decide),
    (C9_amended_guaranteed_reset ceC9w reC9w geC9w).2.2
      "Target frame not found or invalid. Please reselect." (by decide)⟩

/-! ### Claim C10: unknown message types reset the busy flag -/

set_option maxHeartbeats 1000000 in
theorem requestAiContext_not_ignoredBusy {e : ContextEnv}
    (he : e.busy0 = false) :
    (requestAiContext e).outcome ≠ .ignoredBusy := by
  unfold requestAiContext
  rw [he]
  split_ifs <;> simp_all

/-- Claim C10: any inbound message whose type is none of the recognized kinds
takes the default branch of the code.js switch, which sets the busy flag to
false regardless of its prior value — so after a single unrecognized message
arriving while an operation is in flight, a new request-ai-context is no
longer rejected by the busy guard. -/
theorem C10_unknown_message_resets_busy (t : String) (busy : Bool)
    (e : ContextEnv) (h : dispatchBranch t = .unknownBranch) :
    unknownBranchIsProcessingAfter busy = false ∧
    (requestAiContext
        { e with busy0 := unknownBranchIsProcessingAfter busy }).outcome ≠
      .ignoredBusy :=
  ⟨rfl, requestAiContext_not_ignoredBusy rfl⟩

/-- Concrete request environment for the C10 witness. -/
def ceC10w : ContextEnv :=
  { busy0 := true, mode := "create", frameId := some 1, elementInfoId := none,
    lookupThrows := false, frameFound := true, frameRemoved := false,
    frameType := "FRAME", frameChildrenCount := 0, elementFound := true,
    elementRemoved := false, exportThrows := false }

/-- Witness for C10 at a concrete unrecognized message type. -/
theorem C10_witness :
    unknownBranchIsProcessingAfter true = false ∧
    (requestAiContext
        { ceC10w with busy0 := unknownBranchIsProcessingAfter true }).outcome ≠
      .ignoredBusy :=
  C10_unknown_message_resets_busy "bogus-message-type" true ceC10w (by decide)

end Designo
